import Mathlib

/-
Verification of the ClassicalSchoolAnalyzer address library
(src/external/address/*.py) against its specification.

Strings are modelled as lists of characters (`Str`); Python `None`-able
strings are `Option Str`.  Python truthiness of an optional string
(`if s:`) is `otruthy`: `None` and the empty string are falsy.
External capabilities (usaddress `tag`, scourgify's
`normalize_address_record`, `normalize_state`, `normalize_city` and the
token cleaners) are opaque to the library and are modelled as an
explicit oracle structure `ExtCap`; fallible ones return `Except`.
-/

abbrev Str := List Char

/-- Python truthiness of an optional string: `None` and `""` are falsy. -/
def otruthy : Option Str → Bool
  | none => false
  | some s => !s.isEmpty

/-- The whitespace characters stripped by Python's `str.strip()`
(space, tab, newline, carriage return, vertical tab, form feed). -/
def isPyWs (c : Char) : Bool :=
  c = ' ' || c = '\t' || c = '\n' || c = '\r' ||
  c = Char.ofNat 11 || c = Char.ofNat 12

/-- Python `str.strip()`: drop leading and trailing whitespace. -/
def pyStrip (s : Str) : Str :=
  ((s.dropWhile isPyWs).reverse.dropWhile isPyWs).reverse

/-- ASCII lower-casing of one character (Python `str.lower()` on the
ASCII range, which is all that survives the control-character filter). -/
def lowerChar (c : Char) : Char :=
  if 'A' ≤ c ∧ c ≤ 'Z' then Char.ofNat (c.toNat + 32) else c

/-- ASCII upper-casing of one character (Python `str.upper()`). -/
def upperChar (c : Char) : Char :=
  if 'a' ≤ c ∧ c ≤ 'z' then Char.ofNat (c.toNat - 32) else c

def lowerStr (s : Str) : Str := s.map lowerChar

def upperStr (s : Str) : Str := s.map upperChar

/-- `a.startswith(b)` / list-prefix test, defined recursively. -/
def isPfx : Str → Str → Bool
  | [], _ => true
  | _ :: _, [] => false
  | a :: as, b :: bs => a = b && isPfx as bs

/-- `b.endswith(a)` : `a` is a suffix of `b`. -/
def isSfx (a b : Str) : Bool := isPfx a.reverse b.reverse

/-- Python `a in b` on strings: `a` occurs as a contiguous substring of `b`. -/
def isSub (a : Str) : Str → Bool
  | [] => isPfx a []
  | b :: bs => isPfx a (b :: bs) || isSub a bs

/-- `utils.join_parts` helper: keep only truthy parts. -/
def keepTruthy : Option Str → Option Str
  | none => none
  | some s => if s.isEmpty then none else some s

/-- Python `delimiter.join(list)`. -/
def joinL (d : Str) : List Str → Str
  | [] => []
  | [x] => x
  | x :: y :: xs => x ++ d ++ joinL d (y :: xs)

/-- `utils.join_parts(delimiter, parts)`: join only the non-null,
non-empty elements with the delimiter; yield `None` instead of `""`. -/
def join_parts (d : Str) (parts : List (Option Str)) : Option Str :=
  let s := joinL d (parts.filterMap keepTruthy)
  if s.isEmpty then none else some s

/-- A scourgify-style parsed-address record (`OrderedDict` in the code):
the five structural fields, plus the optional `error` and `normalized`
keys.  `none` for `error`/`normalized` models the key being absent
(`utils.define_address` only stores those keys when truthy, and all
call sites pass either nothing or a non-empty string). -/
structure Addr where
  address_line_1 : Option Str
  address_line_2 : Option Str
  city : Option Str
  state : Option Str
  postal_code : Option Str
  error : Option Str := none
  normalized : Option Str := none
deriving DecidableEq, Repr

/-- `utils.define_address`. -/
def define_address (l1 l2 city state postal : Option Str)
    (error : Option Str := none) : Addr :=
  { address_line_1 := l1, address_line_2 := l2, city := city,
    state := state, postal_code := postal, error := error }

/-- The empty record `define_address(None, None, None, None, None)`. -/
def allNullAddr : Addr := define_address none none none none none

/-- The record of five structural fields returned by the opaque primary
parser (scourgify's `normalize_address_record`); it has no error key. -/
structure Rec5 where
  address_line_1 : Option Str
  address_line_2 : Option Str
  city : Option Str
  state : Option Str
  postal_code : Option Str
deriving DecidableEq, Repr

def Rec5.toAddr (r : Rec5) : Addr :=
  define_address r.address_line_1 r.address_line_2 r.city r.state r.postal_code

/-- The opaque external capabilities consumed by the library:
the primary normalizer and the tagger fail as a unit (`Except`);
the canonicalization helpers are total. -/
structure ExtCap where
  primary : Str → Except Str Rec5
  tag : Str → Except Str (List (Str × Str))
  normalize_state : Option Str → Option Str
  normalize_city : Option Str → Option Str
  cleanTok : Str → Str

/-! ## normalize.py : input cleaning -/

/-- `normalize._clean_input`: trim, drop `\x00` and every character
outside printable ASCII `\x20`-`\x7E`, and collapse `""`/`"null"`/
`"none"` (case-insensitively) to `None`. -/
def clean_input : Option Str → Option Str
  | none => none
  | some s =>
    if s.isEmpty then none
    else
      let s1 := ((pyStrip s).filter (fun c => c ≠ Char.ofNat 0)).filter
        (fun c => 0x20 ≤ c.toNat ∧ c.toNat ≤ 0x7E)
      if s1.isEmpty then none
      else if lowerStr s1 = "null".data ∨ lowerStr s1 = "none".data then none
      else some s1

/-- The `\s* address [:;\s]*` tail of `ADDRESS_PREFIX_REGEX` (case
insensitive); returns the remainder after the match, or `none`. -/
def addrLabelTail (t : Str) : Option Str :=
  let t2 := t.dropWhile isPyWs
  if lowerStr (t2.take 7) = "address".data then
    some ((t2.drop 7).dropWhile (fun c => c = ':' || c = ';' || isPyWs c))
  else none

/-- `re.match` of normalize.py's `ADDRESS_PREFIX_REGEX`
`^((mailing)?\s*address[:;\s]*)` (IGNORECASE): the word `mailing` is
optional.  Returns the input past `match.end()` when it matches. -/
def nmLabelMatch (s : Str) : Option Str :=
  if lowerStr (s.take 7) = "mailing".data then
    match addrLabelTail (s.drop 7) with
    | some r => some r
    | none => addrLabelTail s
  else addrLabelTail s

/-- `normalize._clean_address`: general cleaning, then removal of a
leading `"mailing address:"`-style label, then replacement of line
breaks by `", "`. -/
def clean_address (input : Option Str) : Option Str :=
  match clean_input input with
  | none => none
  | some s =>
    let s2 := match nmLabelMatch s with
      | some rest => pyStrip rest
      | none => s
    some (s2.flatMap (fun c => if c = '\n' then ", ".data else [c]))

/-! ## normalize.py : lookup table -/

/-- A loaded lookup-table entry (after `set_lookup_table` normalized its
`raw` key). -/
structure Entry where
  raw : Str
  address_line_1 : Option Str
  address_line_2 : Option Str
  city : Option Str
  state : Option Str
  postal_code : Option Str
deriving DecidableEq, Repr

/-- One element of the JSON list handed to `set_lookup_table`.  A
mapping is a `dict` whose six expected keys may each be missing
(`none`) or present with a nullable string value (`some v`); anything
that is not a mapping (including JSON `null`) is `nonDict`. -/
inductive LItem where
  | nonDict
  | dict (raw address_line_1 address_line_2 city state postal_code :
      Option (Option Str))
deriving DecidableEq, Repr

/-- The first of the six expected keys missing from a dict item, in the
order `set_lookup_table` checks them. -/
def firstMissingKey : LItem → Option Str
  | .nonDict => none
  | .dict raw l1 l2 city state postal =>
    if raw.isNone then some "raw".data
    else if l1.isNone then some "address_line_1".data
    else if l2.isNone then some "address_line_2".data
    else if city.isNone then some "city".data
    else if state.isNone then some "state".data
    else if postal.isNone then some "postal_code".data
    else none

/-- Whether an item is a mapping (`isinstance(item, dict)`). -/
def isDictItem : LItem → Bool
  | .nonDict => false
  | .dict _ _ _ _ _ _ => true

/-- The value of an item's `raw` key (`none` when the key is missing
or the item is not a mapping). -/
def rawValue : LItem → Option Str
  | .nonDict => none
  | .dict raw _ _ _ _ _ => raw.getD none

/-- An item on which the `set_lookup_table` loop raises: not a mapping,
a missing key, or a falsy `raw` value. -/
def itemBad (i : LItem) : Bool :=
  !isDictItem i || (firstMissingKey i).isSome || !otruthy (rawValue i)

/-- The `Entry` a well-formed item becomes: its `raw` value trimmed and
lower-cased, the other five values taken as given. -/
def toEntry : LItem → Entry
  | .nonDict =>
    { raw := [], address_line_1 := none, address_line_2 := none,
      city := none, state := none, postal_code := none }
  | .dict raw l1 l2 city state postal =>
    { raw := lowerStr (pyStrip ((raw.getD none).getD []))
    , address_line_1 := l1.getD none
    , address_line_2 := l2.getD none
    , city := city.getD none
    , state := state.getD none
    , postal_code := postal.getD none }

/-- The validation/append loop body of `set_lookup_table`: entries are
appended to the global table one by one, and the first malformed entry
raises, leaving the already-appended prefix in place. -/
def lookupLoop (tbl : List Entry) : List LItem → List Entry × Option Str
  | [] => (tbl, none)
  | .nonDict :: _ => (tbl, some "unreachable".data)
  | (.dict raw l1 l2 city state postal) :: rest =>
    match firstMissingKey (.dict raw l1 l2 city state postal) with
    | some k => (tbl, some ("Lookup table entry must have key ".data ++ k))
    | none =>
      if !otruthy (raw.getD none) then
        (tbl, some "The 'raw' key must not be null".data)
      else
        lookupLoop (tbl ++ [toEntry (.dict raw l1 l2 city state postal)]) rest

/-- `normalize.set_lookup_table`: given the current global table and
the parsed JSON data, return the table afterwards together with the
raised error, if any.  `None`/empty data is a silent no-op; a non-list
or a list containing a non-mapping raises before anything is appended;
otherwise entries are validated and appended in order and the first
malformed entry raises with the partial prefix already appended. -/
def set_lookup_table (tbl : List Entry) (data : Option (List LItem)) :
    List Entry × Option Str :=
  match data with
  | none => (tbl, none)
  | some items =>
    if items.isEmpty then (tbl, none)
    else if items.any (fun i => i matches .nonDict) then
      (tbl, some "The lookup table must be a file with a JSON array of objects.".data)
    else lookupLoop tbl items

/-! ## normalize.py / address_parser.py : fallback tagging -/

/-- The loop state of `_parse_usaddress`'s tag-grouping pass:
`address_line_1`/`address_line_2` are growable token lists. -/
structure GroupState where
  line1 : List Str
  line2 : List Str
  city : Option Str
  state : Option Str
  postal_code : Option Str
  current_line : Nat
  ignore_future_tags : Bool
deriving Repr

/-- One iteration of `_parse_usaddress`'s grouping loop over the tagged
`(label, value)` pairs, with `clean` the double scourgify cleaning of
the upper-cased value. -/
def groupStep (ext : ExtCap) (s : GroupState) (kv : Str × Str) : GroupState :=
  let cl := ext.cleanTok (upperStr kv.2)
  if kv.1 = "PlaceName".data then
    { s with city := some cl, ignore_future_tags := true }
  else if kv.1 = "StateName".data then
    { s with state := some cl, ignore_future_tags := true }
  else if kv.1 = "ZipCode".data then
    { s with postal_code := some cl, ignore_future_tags := true }
  else if kv.1 = "Recipient".data then
    { s with line1 := s.line1 ++ [cl], current_line := 2 }
  else if !s.ignore_future_tags then
    if s.current_line = 1 then { s with line1 := s.line1 ++ [cl] }
    else { s with line2 := s.line2 ++ [cl] }
  else s

/-- The record `_parse_usaddress` builds from the tagged tokens: the
all-null record on zero tags, otherwise the grouped tags with the line
token lists space-joined and state and city canonicalized. -/
def groupTags (ext : ExtCap) (tagged : List (Str × Str)) : Addr :=
  if tagged.isEmpty then allNullAddr
  else
    let g := tagged.foldl (groupStep ext)
      { line1 := [], line2 := [], city := none, state := none,
        postal_code := none, current_line := 1, ignore_future_tags := false }
    define_address
      (join_parts " ".data (g.line1.map some))
      (join_parts " ".data (g.line2.map some))
      (ext.normalize_city g.city)
      (ext.normalize_state g.state)
      g.postal_code

/-- `_parse_usaddress` (identical in normalize.py and
address_parser.py): tag the string, raising when the tagger raises,
then group the tags into a record. -/
def parse_usaddress (ext : ExtCap) (address : Str) : Except Str Addr :=
  match ext.tag address with
  | .error e => .error e
  | .ok tagged => .ok (groupTags ext tagged)

/-- The post-fix on `address_line_1` shared by both parsers: a line
whose space-stripped form starts with `POBOX` is rewritten as
`"PO BOX"` plus everything after the first `X`. -/
def poBoxFix (a : Addr) : Addr :=
  match a.address_line_1 with
  | none => a
  | some s =>
    if !s.isEmpty && isPfx "POBOX".data (s.filter (fun c => c ≠ ' ')) then
      let afterX : Str := match s.dropWhile (fun c => c ≠ 'X') with
        | [] => s
        | _ :: rest => rest
      { a with address_line_1 := some ("PO BOX".data ++ afterX) }
    else a

/-- The "failed to parse" error message built when both parsers raise. -/
def failMsg (input : Option Str) (e1 e2 : Str) : Str :=
  "Failed to parse '".data ++ (match input with
    | none => "None".data
    | some s => s) ++ "': '".data ++ e1 ++ "' and '".data ++ e2 ++ "'".data

/-- `None if not x else x.strip().lower()`, as `normalize.address`
computes it for both the raw and the cleaned input. -/
def trimLower (x : Option Str) : Option Str :=
  match x with
  | none => none
  | some s => if s.isEmpty then none else some (lowerStr (pyStrip s))

/-- The lookup-table scan of `normalize.address`: the first entry whose
(already normalized) `raw` key equals the trimmed+lower-cased cleaned
input or the trimmed+lower-cased raw input. -/
def lookupHit (tbl : List Entry) (input : Option Str) : Option Entry :=
  tbl.find? (fun e =>
    trimLower (clean_address input) = some e.raw ||
    trimLower input = some e.raw)

/-- `normalize.address`: clean the input, consult the lookup table
against both the cleaned and the merely trimmed+lower-cased raw form,
return the all-null record for empty input, then try the primary
parser and (always) the fallback tagger — the fallback result, when it
does not raise, replaces the primary one — and finally apply the
PO-box fix; when both parsers raise, return an error record. -/
def address (ext : ExtCap) (tbl : List Entry) (input : Option Str) : Addr :=
  let cleaned := clean_address input
  match lookupHit tbl input with
  | some e =>
    define_address e.address_line_1 e.address_line_2 e.city e.state e.postal_code
  | none =>
    if !otruthy cleaned then allNullAddr
    else
      let c := cleaned.getD []
      match ext.primary c, parse_usaddress ext c with
      | _, .ok r => poBoxFix r
      | .ok r, .error _ => poBoxFix r.toAddr
      | .error e1, .error e2 => define_address none none none none none
          (some (failMsg input e1 e2))

/-- `normalize.format`: the canonical rendering, whose city line
comma-joins city and state and space-joins the postal code. -/
def format : Option Addr → Option Str
  | none => none
  | some a =>
    if a.error.isSome then none
    else
      let city_line := join_parts ", ".data [a.city, a.state]
      let city_line := join_parts " ".data [city_line, a.postal_code]
      join_parts "\n".data [a.address_line_1, a.address_line_2, city_line]

/-! ## The comparison result record -/

/-- The `OrderedDict` built by `_package_comp_result` (identical in
compare.py and address_parser.py). -/
structure CompResult where
  match_ : Str
  address_line_1 : Option Str
  address_line_2 : Option Str
  city : Option Str
  state : Option Str
  postal_code : Option Str
  normalized : Option Str
  info : Option Str
deriving DecidableEq, Repr

/-- The in-place mutation `p_par['normalized'] = p_norm` performed by
`_package_comp_result` when both the preferred record and its
normalization are truthy. -/
def setNorm (p : Addr) (n : Option Str) : Addr :=
  if otruthy n then { p with normalized := n } else p

/-- `_package_comp_result(match, p_par, p_norm, info)` (the returned
dictionary; the mutation of `p_par` is `setNorm`). -/
def package (m : Str) (pPar : Option Addr) (pNorm : Option Str)
    (info : Option Str) : CompResult :=
  { match_ := m
  , address_line_1 := pPar.bind Addr.address_line_1
  , address_line_2 := pPar.bind Addr.address_line_2
  , city := pPar.bind Addr.city
  , state := pPar.bind Addr.state
  , postal_code := pPar.bind Addr.postal_code
  , normalized := if otruthy pNorm then pNorm else none
  , info := info }

def bothMsg (e1 e2 : Str) : Str :=
  "Both are un-parseable: '".data ++ e1 ++ "' '".data ++ e2 ++ "'".data

def addr1Msg (e : Str) : Str := "Addr1 not parseable: '".data ++ e ++ "'".data

def addr2Msg (e : Str) : Str := "Addr2 not parseable: '".data ++ e ++ "'".data

/-! ## address_parser.py -/

namespace AP

/-- `re.match` of address_parser.py's `ADDRESS_PREFIX_REGEX`
`^((mailing?)\s*address[:;\s]*)`: here the group `(mailing?)` makes the
word `mailin`/`mailing` mandatory. -/
def labelMatch (s : Str) : Option Str :=
  if lowerStr (s.take 6) = "mailin".data then
    if lowerStr (s.take 7) = "mailing".data then
      match addrLabelTail (s.drop 7) with
      | some r => some r
      | none => addrLabelTail (s.drop 6)
    else addrLabelTail (s.drop 6)
  else none

/-- `address_parser._clean_address`: null/"null"/"none" to `None`,
trim, and removal of a leading label; there is no control-character
pass and no line-break replacement in this variant. -/
def clean_address (input : Option Str) : Option Str :=
  match input with
  | none => none
  | some s =>
    if s.isEmpty || lowerStr s = "null".data || lowerStr s = "none".data then
      none
    else
      let s1 := pyStrip s
      if s1.isEmpty then none
      else match labelMatch s1 with
        | some rest => some (pyStrip rest)
        | none => some s1

/-- `address_parser.parse`: clean, return the all-null record on empty
input, try the primary parser, always try the fallback tagger (whose
non-raising result replaces the primary one), build an error record
when both raise, and apply the PO-box fix. -/
def parse (ext : ExtCap) (input : Option Str) : Addr :=
  let cleaned := clean_address input
  if !otruthy cleaned then allNullAddr
  else
    let c := cleaned.getD []
    match ext.primary c, parse_usaddress ext c with
    | _, .ok r => poBoxFix r
    | .ok r, .error _ => poBoxFix r.toAddr
    | .error e1, .error e2 => define_address none none none none none
        (some (failMsg input e1 e2))

/-- `address_parser.normalize`: the rendering whose city line
space-joins city, state and postal code. -/
def normalize : Option Addr → Option Str
  | none => none
  | some a =>
    if a.error.isSome then none
    else
      join_parts "\n".data [a.address_line_1, a.address_line_2,
        join_parts " ".data [a.city, a.state, a.postal_code]]

/-- `normalize` applied to a (non-null) record. -/
def nrmA (a : Addr) : Option Str := normalize (some a)

/-- `_fix_zip(p1, p2, n2)`: when the reference `p1` has a postal code
and `p2`'s is missing or a prefix of it, `p2` adopts `p1`'s code. -/
def fix_zip (p1 p2 : Addr) (n2 : Option Str) : Addr × Option Str :=
  if otruthy p1.postal_code &&
      (!otruthy p2.postal_code ||
        isPfx (p2.postal_code.getD []) (p1.postal_code.getD [])) then
    let p2' := { p2 with postal_code := p1.postal_code }
    (p2', nrmA p2')
  else (p2, n2)

/-- The TypeError Python raises on `None + ' ...'` when
`_fix_city_spacing` appends to a line that is null. -/
def plusNoneErr : Str :=
  "TypeError: unsupported operand type for +=: NoneType and str".data

/-- The guard of `_fix_city_spacing`'s fix: `p1`'s city is truthy, a
strict substring of `p2`'s truthy city, and `merged_1` — `p1`'s lines
and city concatenated with no delimiter — is truthy and ends with
`p2`'s city.  (The two nested `if`s of the source are pure, so their
conjunction is taken here.) -/
def cityCond (p1 p2 : Addr) : Bool :=
  (otruthy p1.city && otruthy p2.city && (p1.city != p2.city) &&
    isSub (p1.city.getD []) (p2.city.getD [])) &&
  (otruthy (join_parts [] [p1.address_line_1, p1.address_line_2, p1.city]) &&
    isSfx (p2.city.getD [])
      ((join_parts [] [p1.address_line_1, p1.address_line_2, p1.city]).getD []))

/-- The in-place mutation `_fix_city_spacing` applies to `p2` once its
guard holds: append the leading extra characters of `p2`'s city (those
beyond `p1`'s city, peeled off by `p2['city'][:-len(p1['city'])]`) to
`p2`'s last truthy line and adopt `p1`'s city.  Appending to a null
`address_line_1` is Python's `None += str`, a TypeError. -/
def cfixE (p1 p2 : Addr) : Except Str Addr :=
  let c2 := p2.city.getD []
  let extra := c2.take (c2.length - (p1.city.getD []).length)
  if otruthy p2.address_line_2 then
    .ok { p2 with
      address_line_2 := some ((p2.address_line_2.getD []) ++ " ".data ++ extra)
      , city := p1.city }
  else
    match p2.address_line_1 with
    | none => .error plusNoneErr
    | some s =>
      .ok { p2 with
        address_line_1 := some (s ++ " ".data ++ extra), city := p1.city }

/-- `_fix_city_spacing(p1, p2, n2)`: when `p1`'s city is a strict
substring of `p2`'s and `p1`'s concatenated lines+city end with `p2`'s
city, peel the extra leading characters of `p2`'s city back onto its
last non-null line and adopt `p1`'s city.  Appending to a null line
raises a TypeError. -/
def fix_city_spacing (p1 p2 : Addr) (n2 : Option Str) :
    Except Str (Addr × Option Str) :=
  if cityCond p1 p2 then
    match cfixE p1 p2 with
    | .error e => .error e
    | .ok p2' => .ok (p2', nrmA p2')
  else .ok (p2, n2)

/-- `_fix_missing_info(p1, p2, n2)`: copy a city or state `p2` lacks
from `p1`, and when `p1`'s second line equals `p2`'s first line (a
recipient shifted the lines on one side), copy both lines from `p1`. -/
def fix_missing_info (p1 p2 : Addr) (n2 : Option Str) : Addr × Option Str :=
  let s1 := if otruthy p1.city && !otruthy p2.city then
      let q := { p2 with city := p1.city }
      (q, nrmA q)
    else (p2, n2)
  let s2 := if otruthy p1.state && !otruthy s1.1.state then
      let q := { s1.1 with state := p1.state }
      (q, nrmA q)
    else s1
  if otruthy p1.address_line_2 && (p1.address_line_2 == s2.1.address_line_1) then
    let q := { s2.1 with address_line_1 := p1.address_line_1
                       , address_line_2 := p1.address_line_2 }
    (q, nrmA q)
  else s2

/-- The third (and last) iteration of `compare`'s correction loop,
running `_fix_missing_info` on each side; `c1`/`c2` are the
`(parsedN, normN)` pairs after the second iteration. -/
def stageMissing (c1 c2 : Addr × Option Str) : CompResult × Addr :=
  let m1 := fix_missing_info c2.1 c1.1 c1.2
  let m2 := fix_missing_info m1.1 c2.1 c2.2
  if m1.2 = m2.2 then
    let p1f := setNorm m1.1 m1.2
    (package "INDICATOR".data (some p1f) m1.2
      (some "Missing city, state, or recipient".data), p1f)
  else
    (package "NONE".data none none none, m1.1)

/-- The second and third iterations of `compare`'s correction loop:
`_fix_city_spacing` on each side (which can raise a TypeError when it
appends to a null line), then the missing-info stage; `z1`/`z2` are the
`(parsedN, normN)` pairs after the zip iteration. -/
def stageCity (z1 z2 : Addr × Option Str) : Except Str (CompResult × Addr) :=
  match fix_city_spacing z2.1 z1.1 z1.2 with
  | .error e => .error e
  | .ok c1 =>
    match fix_city_spacing c1.1 z2.1 z2.2 with
    | .error e => .error e
    | .ok c2 =>
      if c1.2 = c2.2 then
        let p1f := setNorm c1.1 c1.2
        .ok (package "INDICATOR".data (some p1f) c1.2
          (some "Malformed spacing".data), p1f)
      else
        .ok (stageMissing c1 c2)

/-- The ordered correction pipeline of `compare` (its `for func, info
in functions` loop, unrolled into its three iterations): each stage
first fixes `parsed1` using `parsed2` as the reference and then fixes
`parsed2` using the updated `parsed1`, re-checking normalization
equality after each stage. -/
def pipeline (parsed1 parsed2 : Addr) (n1 n2 : Option Str) :
    Except Str (CompResult × Addr) :=
  let z1 := fix_zip parsed2 parsed1 n1
  let z2 := fix_zip z1.1 parsed2 n2
  if z1.2 = z2.2 then
    let p1f := setNorm z1.1 z1.2
    .ok (package "INDICATOR".data (some p1f) z1.2
      (some "Mising/incomplete postal_code".data), p1f)
  else
    stageCity z1 z2

/-- `address_parser.compare(addr1, addr2, parsed1)`.  Besides the
packaged result it returns the final state of the (mutable) `parsed1`
record object, so that the in-place corrections the heuristic chain
writes through a caller-supplied record are visible; the TypeError a
null-line append raises surfaces as `Except.error`. -/
def compare (ext : ExtCap) (parsed1Arg : Option Addr)
    (addr1 addr2 : Option Str) : Except Str (CompResult × Addr) :=
  let parsed1 := parsed1Arg.getD (parse ext addr1)
  if addr1 = addr2 then
    let n1 := nrmA parsed1
    let p1f := setNorm parsed1 n1
    .ok (package "EXACT".data (some p1f) n1 none, p1f)
  else
    let parsed2 := parse ext addr2
    if parsed1.error.isSome then
      if parsed2.error.isSome then
        .ok (package "NONE".data none none
          (some (bothMsg (parsed1.error.getD []) (parsed2.error.getD []))), parsed1)
      else
        let n2 := nrmA parsed2
        .ok (package "NONE".data (some (setNorm parsed2 n2)) n2
          (some (addr1Msg (parsed1.error.getD []))), parsed1)
    else if parsed2.error.isSome then
      let n1 := nrmA parsed1
      .ok (package "NONE".data (some (setNorm parsed1 n1)) n1
        (some (addr2Msg (parsed2.error.getD []))), setNorm parsed1 n1)
    else
      let n1 := nrmA parsed1
      let n2 := nrmA parsed2
      if n1 = n2 then
        let p1f := setNorm parsed1 n1
        .ok (package "INDICATOR".data (some p1f) n1
          (some "Identical normalization".data), p1f)
      else if (otruthy n1 && !otruthy n2) || (!otruthy n1 && otruthy n2) then
        if otruthy n1 then
          let p1f := setNorm parsed1 n1
          .ok (package "NONE".data (some p1f) n1
            (some "Preferred non-null".data), p1f)
        else
          .ok (package "NONE".data (some (setNorm parsed2 n2)) n2
            (some "Preferred non-null".data), parsed1)
      else
        pipeline parsed1 parsed2 n1 n2

end AP

/-! ## compare.py -/

namespace CP

/-- The TypeError Python raises on `normalize(parsed)` in compare.py:
`normalize` there is the imported MODULE, not a function. -/
def moduleCallErr : Str := "TypeError: 'module' object is not callable".data

/-- `compare.compare(addr1, addr2, parsed1)`: every branch that needs
a formatted preference evaluates `normalize(parsedN)` — a call of the
`normalize` module object — and therefore raises a TypeError; only the
branch in which both sides are unparseable builds its result without
formatting anything and returns normally. -/
def compare (ext : ExtCap) (tbl : List Entry) (parsed1Arg : Option Addr)
    (addr1 addr2 : Option Str) : Except Str CompResult :=
  let parsed1 := parsed1Arg.getD (address ext tbl addr1)
  if addr1 = addr2 then
    .error moduleCallErr
  else
    let parsed2 := address ext tbl addr2
    if parsed1.error.isSome then
      if parsed2.error.isSome then
        .ok (package "NONE".data none none
          (some (bothMsg (parsed1.error.getD []) (parsed2.error.getD []))))
      else .error moduleCallErr
    else if parsed2.error.isSome then .error moduleCallErr
    else .error moduleCallErr

end CP

/-! ## Basic facts about the embedded operations -/

lemma poBoxFix_error (a : Addr) : (poBoxFix a).error = a.error := by
  unfold poBoxFix
  cases a.address_line_1 with
  | none => rfl
  | some s =>
    simp only
    split <;> rfl

lemma groupTags_error (ext : ExtCap) (tags : List (Str × Str)) :
    (groupTags ext tags).error = none := by
  unfold groupTags
  split <;> rfl

lemma parse_usaddress_ok_error (ext : ExtCap) (c : Str) (r : Addr)
    (h : parse_usaddress ext c = .ok r) : r.error = none := by
  unfold parse_usaddress at h
  cases ht : ext.tag c <;> rw [ht] at h
  · exact absurd h (by simp)
  · cases h
    exact groupTags_error ext _

/-! ## Shared concrete data for witnesses and counterexamples -/

/-- An oracle on which both external parsers fail on every input. -/
def extFail : ExtCap :=
  { primary := fun _ => .error "scourgify failed".data
  , tag := fun _ => .error "usaddress failed".data
  , normalize_state := fun s => s
  , normalize_city := fun s => s
  , cleanTok := fun s => s }

/-- A concrete loaded lookup-table entry with raw key `"5 a st"`. -/
def entryAST : Entry :=
  { raw := "5 a st".data
  , address_line_1 := some "5 A ST".data
  , address_line_2 := none
  , city := some "SPRINGFIELD".data
  , state := some "IL".data
  , postal_code := some "62704".data }

/-! ## C1 -/

/-- C1: the claim says `compare` never raises and degrades an
unparseable side to a NONE verdict.  In compare.py the verdict's
preference is formatted by calling the imported `normalize` MODULE as
a function, a `TypeError`: with `addr1` unparseable and `addr2`
resolved through the lookup table, `compare` raises instead of
returning NONE.  Only the both-sides-unparseable branch, which formats
nothing, returns normally. -/
theorem c1_compare_raises_on_single_unparseable_side :
    CP.compare extFail [entryAST] none (some "garbage".data)
        (some "5 A St".data) = .error CP.moduleCallErr ∧
    (CP.compare extFail [] none (some "garbage".data)
        (some "other junk".data)).isOk = true := by
  exact ⟨rfl, rfl⟩

/-! ## C2 -/

/-- C2: the claim says `compare(s, s)` short-circuits to an EXACT
result with `preference = format(parse(s))`.  The short-circuit branch
of compare.py evaluates `normalize(parsed1)` — a call of the
`normalize` module object — so for EVERY string `s` the call raises a
`TypeError` instead of returning the EXACT result. -/
theorem c2_exact_short_circuit_raises (ext : ExtCap) (tbl : List Entry)
    (s : Str) :
    CP.compare ext tbl none (some s) (some s) = .error CP.moduleCallErr := by
  unfold CP.compare
  rw [if_pos rfl]

/-! ## C4 -/

/-- C4: the claim (and the code's own comment) says internal line
breaks are replaced by `", "` and an empty cleaning result becomes
null.  In fact `_clean_input`'s control-character filter deletes the
newline before `_clean_address`'s replacement can see it, so
`"52 WOOD RD\nNORTH CITY"` cleans to `"52 WOOD RDNORTH CITY"` (the
words merge) rather than `"52 WOOD RD, NORTH CITY"`; and an input
reduced to the bare label `"address:"` cleans to `""`, not null. -/
theorem c4_clean_deletes_line_breaks :
    clean_address (some "52 WOOD RD\nNORTH CITY".data) =
      some "52 WOOD RDNORTH CITY".data ∧
    clean_address (some "52 WOOD RD\nNORTH CITY".data) ≠
      some "52 WOOD RD, NORTH CITY".data ∧
    clean_address (some "address:".data) = some [] := by
  exact ⟨by decide, by decide, by decide⟩

/-! ## C9 -/

/-- C9: every record returned by `normalize.address` either has no
error key, or has it set with all five structural fields null — the
error key and structural data are mutually exclusive, for every
oracle, every lookup table and every input (including null). -/
theorem c9_error_and_fields_mutually_exclusive (ext : ExtCap)
    (tbl : List Entry) (input : Option Str) :
    (address ext tbl input).error = none ∨
      ((address ext tbl input).error.isSome = true ∧
       (address ext tbl input).address_line_1 = none ∧
       (address ext tbl input).address_line_2 = none ∧
       (address ext tbl input).city = none ∧
       (address ext tbl input).state = none ∧
       (address ext tbl input).postal_code = none) := by
  unfold address
  cases h : lookupHit tbl input with
  | some e => left; rfl
  | none =>
    simp only
    split
    · left; rfl
    · cases hp : ext.primary ((clean_address input).getD []) <;>
        cases hf : parse_usaddress ext ((clean_address input).getD []) <;>
        simp only [hp, hf]
      · right; exact ⟨rfl, rfl, rfl, rfl, rfl, rfl⟩
      · left
        rw [poBoxFix_error]
        exact parse_usaddress_ok_error ext _ _ hf
      · left
        rw [poBoxFix_error]
        rfl
      · left
        rw [poBoxFix_error]
        exact parse_usaddress_ok_error ext _ _ hf

/-! ## C3 -/

lemma matches_nonDict_eq (i : LItem) :
    (i matches LItem.nonDict) = !isDictItem i := by
  cases i <;> rfl

lemma lookupLoop_partial (items : List LItem) (tbl : List Entry)
    (hd : items.all isDictItem = true) (hb : items.any itemBad = true) :
    (lookupLoop tbl items).2.isSome = true ∧
    (lookupLoop tbl items).1 =
      tbl ++ (items.takeWhile (fun i => !itemBad i)).map toEntry := by
  induction items generalizing tbl with
  | nil => simp at hb
  | cons i rest ih =>
    cases i with
    | nonDict => simp [isDictItem] at hd
    | dict raw l1 l2 city state postal =>
      rw [List.all_cons] at hd
      cases hm : firstMissingKey (.dict raw l1 l2 city state postal) with
      | some k =>
        have hbad : itemBad (.dict raw l1 l2 city state postal) = true := by
          simp [itemBad, hm]
        simp [lookupLoop, hm, hbad]
      | none =>
        cases hr : otruthy (raw.getD none) with
        | false =>
          have hbad : itemBad (.dict raw l1 l2 city state postal) = true := by
            simp [itemBad, rawValue, hr]
          simp [lookupLoop, hm, hr, hbad]
        | true =>
          have hgood : itemBad (.dict raw l1 l2 city state postal) = false := by
            simp [itemBad, isDictItem, rawValue, hm, hr]
          have hb' : rest.any itemBad = true := by
            rw [List.any_cons, hgood] at hb
            simpa using hb
          have := ih (tbl ++ [toEntry (.dict raw l1 l2 city state postal)])
            (by simp at hd ⊢; exact hd.2) hb'
          refine ⟨?_, ?_⟩
          · rw [show lookupLoop tbl (LItem.dict raw l1 l2 city state postal :: rest)
              = lookupLoop (tbl ++ [toEntry (.dict raw l1 l2 city state postal)]) rest from by
                simp [lookupLoop, hm, hr]]
            exact this.1
          · rw [show lookupLoop tbl (LItem.dict raw l1 l2 city state postal :: rest)
              = lookupLoop (tbl ++ [toEntry (.dict raw l1 l2 city state postal)]) rest from by
                simp [lookupLoop, hm, hr]]
            rw [this.2]
            rw [List.takeWhile_cons]
            simp [hgood]

/-- A well-formed lookup item (raw key `" K1 "`, the other five keys
present). -/
def goodItem : LItem :=
  .dict (some (some " K1 ".data)) (some (some "A".data)) (some none)
    (some none) (some none) (some none)

/-- A malformed lookup item: the `address_line_1` key is missing. -/
def badItem : LItem :=
  .dict (some (some "K2".data)) none (some none) (some none) (some none)
    (some none)

/-- C3 counterexample: loading `[goodItem, badItem]` into an empty
table raises on the malformed second item, but the well-formed first
item has already been appended — the table is NOT left unchanged, so
the claimed no-partial-tables property fails. -/
theorem c3_partial_table_counterexample :
    (set_lookup_table [] (some [goodItem, badItem])).2.isSome = true ∧
    (set_lookup_table [] (some [goodItem, badItem])).1 ≠ [] := by
  exact ⟨rfl, by decide⟩

/-- C3 amended: on a list of mappings containing a malformed entry,
`set_lookup_table` raises a descriptive error, but the well-formed
entries STRICTLY PRECEDING the first malformed one have already been
appended to the table (validation and append share one loop); nothing
from the first malformed entry onward is added.  (A list containing a
non-mapping, checked up front, fails with the table unchanged.) -/
theorem c3_load_appends_prefix_before_failure (tbl : List Entry)
    (items : List LItem) (hd : items.all isDictItem = true)
    (hb : items.any itemBad = true) :
    (set_lookup_table tbl (some items)).2.isSome = true ∧
    (set_lookup_table tbl (some items)).1 =
      tbl ++ (items.takeWhile (fun i => !itemBad i)).map toEntry := by
  have hne : items.isEmpty = false := by
    cases items
    · simp at hb
    · rfl
  have hnd : items.any (fun i => i matches LItem.nonDict) = false := by
    simp only [matches_nonDict_eq]
    rw [List.all_eq_true] at hd
    rw [List.any_eq_false]
    intro x hx
    simp [hd x hx]
  unfold set_lookup_table
  simp only [hne, hnd, Bool.false_eq_true, if_false]
  exact lookupLoop_partial items tbl hd hb

/-- C3 witness: the amended statement evaluated on the concrete
two-item list. -/
theorem c3_load_appends_prefix_witness :
    (set_lookup_table [] (some [goodItem, badItem])).2.isSome = true ∧
    (set_lookup_table [] (some [goodItem, badItem])).1 =
      [] ++ (([goodItem, badItem].takeWhile (fun i => !itemBad i)).map toEntry) :=
  c3_load_appends_prefix_before_failure [] [goodItem, badItem]
    (by decide) (by decide)

/-! ## C8 -/

/-- C8: when the lookup scan hits (the cleaned or the merely
trimmed+lower-cased raw form equals a loaded entry's raw key), `address`
returns the first matching entry's five structural fields verbatim with
no error key, for EVERY oracle — both parsers are bypassed. -/
theorem c8_lookup_hit_bypasses_parsers (ext : ExtCap) (tbl : List Entry)
    (input : Option Str) (e : Entry) (h : lookupHit tbl input = some e) :
    address ext tbl input =
      define_address e.address_line_1 e.address_line_2 e.city e.state
        e.postal_code := by
  unfold address
  rw [h]

/-- C8 witness: the garbled raw input `" 5 A St "` hits the table entry
under trim+lowercase and returns its fields even though the oracle
`extFail` fails both parsers on every input. -/
theorem c8_lookup_hit_bypasses_parsers_witness :
    lookupHit [entryAST] (some " 5 A St ".data) = some entryAST ∧
    address extFail [entryAST] (some " 5 A St ".data) =
      define_address entryAST.address_line_1 entryAST.address_line_2
        entryAST.city entryAST.state entryAST.postal_code :=
  ⟨rfl, c8_lookup_hit_bypasses_parsers extFail [entryAST]
    (some " 5 A St ".data) entryAST rfl⟩

/-! ## C5 -/

/-- C5: for any input that survives cleaning and misses the lookup
table, whenever the fallback tagger returns without raising, the
result of `address` is the (PO-box-fixed) fallback record — whatever
the primary parser returned: the fallback unconditionally overwrites
it. -/
theorem c5_fallback_overwrites_primary (ext : ExtCap) (tbl : List Entry)
    (input : Option Str) (c : Str) (tags : List (Str × Str))
    (hc : clean_address input = some c) (hne : c.isEmpty = false)
    (hl : lookupHit tbl input = none)
    (ht : ext.tag c = .ok tags) :
    address ext tbl input = poBoxFix (groupTags ext tags) := by
  unfold address
  rw [hl]
  simp only [hc]
  have hot : otruthy (some c) = true := by simp [otruthy, hne]
  rw [hot]
  simp only [Bool.not_true, Option.getD_some]
  have hfu : parse_usaddress ext c = .ok (groupTags ext tags) := by
    unfold parse_usaddress
    rw [ht]
  cases hp : ext.primary c <;> simp [hfu, hp]

/-- An oracle whose primary parser fully succeeds with a populated
record while the tagger returns zero tags. -/
def extOverwrite : ExtCap :=
  { primary := fun _ =>
      .ok ⟨some "1 MAIN ST".data, none, some "SPRINGFIELD".data,
        some "IL".data, some "62704".data⟩
  , tag := fun _ => .ok []
  , normalize_state := fun s => s
  , normalize_city := fun s => s
  , cleanTok := fun s => s }

/-- C5 witness: with a successful primary parse and a zero-tag
fallback, `address` returns the all-null fallback record, discarding
the primary parser's populated record. -/
theorem c5_fallback_overwrites_primary_witness :
    address extOverwrite [] (some "1 Main St".data) =
      poBoxFix (groupTags extOverwrite []) ∧
    address extOverwrite [] (some "1 Main St".data) = allNullAddr :=
  ⟨c5_fallback_overwrites_primary extOverwrite [] (some "1 Main St".data)
    "1 Main St".data [] rfl rfl rfl rfl, rfl⟩

/-! ## C6 -/

/-- A pre-parsed first record with a 5-digit postal code, as a caller
such as `run_compare_file` would hold across many `compare` calls. -/
def p1c6 : Addr :=
  define_address (some "1 MAIN ST".data) none (some "SPRINGFIELD".data)
    (some "IL".data) (some "12345".data)

/-- An oracle whose primary parser yields the same address with the
full 9-digit postal code (the tagger fails, so the primary result
survives). -/
def extNine : ExtCap :=
  { primary := fun _ =>
      .ok ⟨some "1 MAIN ST".data, none, some "SPRINGFIELD".data,
        some "IL".data, some "123456789".data⟩
  , tag := fun _ => .error "no tags".data
  , normalize_state := fun s => s
  , normalize_city := fun s => s
  , cleanTok := fun s => s }

/-- An oracle whose primary parser yields the same address with the
truncated 5-digit postal code. -/
def extFive : ExtCap :=
  { primary := fun _ =>
      .ok ⟨some "1 MAIN ST".data, none, some "SPRINGFIELD".data,
        some "IL".data, some "12345".data⟩
  , tag := fun _ => .error "no tags".data
  , normalize_state := fun s => s
  , normalize_city := fun s => s
  , cleanTok := fun s => s }

/-- C6 counterexample: comparing against an address whose parse carries
the 9-digit postal code makes `_fix_zip` write the 9-digit code into
the caller-supplied pre-parsed record in place: after the call the
record's `postal_code` is `"123456789"`, not the `"12345"` it was
supplied with — its fields are NOT left unchanged. -/
theorem c6_record_mutated_counterexample :
    (AP.compare extNine (some p1c6) (some "A".data) (some "B".data)).map
        (fun x => x.2.postal_code) = .ok (some "123456789".data) ∧
    p1c6.postal_code = some "12345".data := by
  exact ⟨rfl, rfl⟩

/-- The state of `p1c6` after the comparison above: the zip completion
and the `normalized` annotation have been written through it. -/
def p1c6After : Addr :=
  { p1c6 with postal_code := some "123456789".data
            , normalized := some "1 MAIN ST\nSPRINGFIELD IL 123456789".data }

/-- C6 amended: `compare` corrects the caller-supplied pre-parsed
record in place, and the correction persists: a later comparison of the
same address against a 5-digit variant answers with the 9-digit code
when given the record the first call mutated, but with the 5-digit code
when given a fresh copy of the original record — batch comparisons
reusing one parsed record are NOT mutually independent. -/
theorem c6_mutation_leaks_into_next_call :
    (AP.compare extNine (some p1c6) (some "A".data) (some "B".data)).map
        (fun x => x.2) = .ok p1c6After ∧
    (AP.compare extFive (some p1c6After) (some "A".data) (some "C".data)).map
        (fun x => x.1.postal_code) = .ok (some "123456789".data) ∧
    (AP.compare extFive (some p1c6) (some "A".data) (some "C".data)).map
        (fun x => x.1.postal_code) = .ok (some "12345".data) := by
  exact ⟨rfl, rfl, rfl⟩

lemma keepTruthy_none_iff (o : Option Str) :
    keepTruthy o = none ↔ otruthy o = false := by
  cases o with
  | none => simp [keepTruthy, otruthy]
  | some s =>
    simp only [keepTruthy, otruthy]
    cases h : s.isEmpty <;> simp [h]

lemma keepTruthy_some_isEmpty (o : Option Str) (s : Str)
    (h : keepTruthy o = some s) : s.isEmpty = false := by
  cases o with
  | none => cases h
  | some t =>
    simp only [keepTruthy] at h
    cases ht : t.isEmpty <;> rw [ht] at h
    · simp at h
      rw [← h]
      exact ht
    · simp at h

lemma keepTruthy_some_val (o : Option Str) (s : Str)
    (h : keepTruthy o = some s) : o = some s := by
  cases o with
  | none => cases h
  | some t =>
    simp only [keepTruthy] at h
    cases ht : t.isEmpty <;> rw [ht] at h
    · simp at h
      rw [h]
    · simp at h

lemma join_parts_keepTruthy (d : Str) (ps : List (Option Str)) :
    keepTruthy (join_parts d ps) = join_parts d ps := by
  unfold join_parts
  cases h : (joinL d (ps.filterMap keepTruthy)).isEmpty <;>
    simp [h, keepTruthy]

lemma joinL_cons₂ (d : Str) (x y : Str) (xs : List Str) :
    joinL d (x :: y :: xs) = x ++ d ++ joinL d (y :: xs) := rfl

lemma joinL_cons_ex (d : Str) (x : Str) (xs : List Str) :
    ∃ t, joinL d (x :: xs) = x ++ t := by
  cases xs with
  | nil => exact ⟨[], by simp [joinL]⟩
  | cons y ys => exact ⟨d ++ joinL d (y :: ys), by simp [joinL_cons₂, List.append_assoc]⟩

lemma joinL_append_single (d : Str) (P : List Str) (x : Str) (h : P ≠ []) :
    joinL d (P ++ [x]) = joinL d P ++ d ++ x := by
  induction P with
  | nil => exact absurd rfl h
  | cons p ps ih =>
    cases ps with
    | nil => simp [joinL]
    | cons q qs =>
      have H := ih (List.cons_ne_nil q qs)
      simp only [List.cons_append] at H ⊢
      rw [joinL_cons₂, H, joinL_cons₂]
      simp [List.append_assoc]

/-- `join_parts` yields `none` exactly when no part survives the
truthiness filter, and otherwise the plain join of the survivors (the
join of a list with a truthy head is never empty). -/
lemma join_parts_eq_list (d : Str) (ps : List (Option Str)) :
    join_parts d ps =
      if ps.filterMap keepTruthy = [] then none
      else some (joinL d (ps.filterMap keepTruthy)) := by
  unfold join_parts
  cases hP : ps.filterMap keepTruthy with
  | nil => simp [joinL]
  | cons p ps' =>
    have hp : p.isEmpty = false := by
      have : p ∈ ps.filterMap keepTruthy := by
        rw [hP]
        exact List.mem_cons_self p ps'
      obtain ⟨o, _, ho⟩ := List.mem_filterMap.1 this
      exact keepTruthy_some_isEmpty o p ho
    have : (joinL d (p :: ps')).isEmpty = false := by
      obtain ⟨t, ht⟩ := joinL_cons_ex d p ps'
      rw [ht]
      cases p with
      | nil => cases hp
      | cons c cs => rfl
    simp [this]

lemma filterMap_keepTruthy_three (L1 L2 X : Option Str)
    (hX : keepTruthy X = X) :
    [L1, L2, X].filterMap keepTruthy =
      [L1, L2].filterMap keepTruthy ++ X.toList := by
  rw [show [L1, L2, X] = [L1, L2] ++ [X] from rfl, List.filterMap_append]
  congr 1
  rw [show ([X].filterMap keepTruthy) = (keepTruthy X).toList from by
    cases h : keepTruthy X <;> simp [List.filterMap, h]]
  rw [hX]

/-- When the renderings of two records share their first two line
slots, equality of the rendered strings is exactly equality of the
city-line slot: the last join component is injective. -/
lemma join3_last_inj (d : Str) (L1 L2 X Y : Option Str)
    (hX : keepTruthy X = X) (hY : keepTruthy Y = Y) :
    (join_parts d [L1, L2, X] = join_parts d [L1, L2, Y]) ↔ X = Y := by
  constructor
  · intro h
    rw [join_parts_eq_list, join_parts_eq_list,
        filterMap_keepTruthy_three L1 L2 X hX,
        filterMap_keepTruthy_three L1 L2 Y hY] at h
    cases X with
    | none =>
      cases Y with
      | none => rfl
      | some y =>
        exfalso
        cases hP : [L1, L2].filterMap keepTruthy with
        | nil => simp [hP] at h
        | cons p ps =>
          rw [hP] at h
          simp only [Option.toList, List.append_nil] at h
          rw [if_neg (by simp), if_neg (by simp),
              joinL_append_single d (p :: ps) y (by simp)] at h
          have := congrArg List.length (Option.some.inj h)
          simp [List.length_append] at this
          have hy : y.isEmpty = false :=
            keepTruthy_some_isEmpty (some y) y hY
          cases y with
          | nil => cases hy
          | cons c cs => simp at this
    | some x =>
      cases Y with
      | none =>
        exfalso
        cases hP : [L1, L2].filterMap keepTruthy with
        | nil => simp [hP] at h
        | cons p ps =>
          rw [hP] at h
          simp only [Option.toList, List.append_nil] at h
          rw [if_neg (by simp), if_neg (by simp),
              joinL_append_single d (p :: ps) x (by simp)] at h
          have := congrArg List.length (Option.some.inj h)
          simp [List.length_append] at this
          have hx : x.isEmpty = false :=
            keepTruthy_some_isEmpty (some x) x hX
          cases x with
          | nil => cases hx
          | cons c cs => simp at this
      | some y =>
        cases hP : [L1, L2].filterMap keepTruthy with
        | nil =>
          rw [hP] at h
          simp only [Option.toList, List.nil_append] at h
          rw [if_neg (by simp), if_neg (by simp)] at h
          simp [joinL] at h
          rw [h]
        | cons p ps =>
          rw [hP] at h
          simp only [Option.toList] at h
          rw [if_neg (by simp), if_neg (by simp),
              joinL_append_single d (p :: ps) x (by simp),
              joinL_append_single d (p :: ps) y (by simp)] at h
          have h2 := List.append_cancel_left (Option.some.inj h)
          rw [h2]
  · rintro rfl
    rfl

lemma filterMap_keepTruthy_cons (o : Option Str) (rest : List (Option Str)) :
    (o :: rest).filterMap keepTruthy =
      (keepTruthy o).toList ++ rest.filterMap keepTruthy := by
  cases h : keepTruthy o <;> simp [List.filterMap_cons, h]

lemma join_parts_congr (d : Str) (ps qs : List (Option Str))
    (h : ps.filterMap keepTruthy = qs.filterMap keepTruthy) :
    join_parts d ps = join_parts d qs := by
  rw [join_parts_eq_list, join_parts_eq_list, h]


/-- The value of a two-part join in terms of the truthiness-filtered
parts. -/
lemma join2_kT (d : Str) (c s : Option Str) :
    join_parts d [c, s] =
      match keepTruthy c, keepTruthy s with
      | none, none => none
      | some cv, none => some cv
      | none, some sv => some sv
      | some cv, some sv => some (cv ++ d ++ sv) := by
  rw [join_parts_eq_list, filterMap_keepTruthy_cons, filterMap_keepTruthy_cons,
      List.filterMap_nil, List.append_nil]
  cases hc : keepTruthy c <;> cases hs : keepTruthy s <;>
    simp [joinL, joinL_cons₂]

/-- The two city-line renderings — `join(', ', [city, state])` then
`join(' ', [·, postal])` versus `join(' ', [city, state, postal])` —
agree exactly when city and state are not both truthy. -/
lemma cityline_eq_iff (c s p : Option Str) :
    (join_parts " ".data [join_parts ", ".data [c, s], p] =
      join_parts " ".data [c, s, p]) ↔
    (otruthy c = false ∨ otruthy s = false) := by
  cases hc : keepTruthy c with
  | none =>
    have hcf : otruthy c = false := (keepTruthy_none_iff c).1 hc
    simp only [hcf, true_or, iff_true]
    apply join_parts_congr
    rw [filterMap_keepTruthy_cons, filterMap_keepTruthy_cons c,
        filterMap_keepTruthy_cons s, join_parts_keepTruthy, join2_kT, hc]
    cases hs : keepTruthy s <;> simp
  | some cv =>
    have hcv : cv.isEmpty = false := keepTruthy_some_isEmpty c cv hc
    have hct : otruthy c = true := by
      cases hx : otruthy c
      · rw [(keepTruthy_none_iff c).2 hx] at hc
        cases hc
      · rfl
    cases hs : keepTruthy s with
    | none =>
      have hsf : otruthy s = false := (keepTruthy_none_iff s).1 hs
      simp only [hsf, or_true, iff_true]
      apply join_parts_congr
      rw [filterMap_keepTruthy_cons, filterMap_keepTruthy_cons c,
          filterMap_keepTruthy_cons s, join_parts_keepTruthy, join2_kT, hc, hs]
      simp
    | some sv =>
      have hsv : sv.isEmpty = false := keepTruthy_some_isEmpty s sv hs
      have hst : otruthy s = true := by
        cases hx : otruthy s
        · rw [(keepTruthy_none_iff s).2 hx] at hs
          cases hs
        · rfl
      simp only [hct, hst, Bool.true_eq_false, or_self, iff_false]
      have hbig : keepTruthy (some (cv ++ ", ".data ++ sv)) =
          some (cv ++ ", ".data ++ sv) := by
        simp only [keepTruthy]
        rw [if_neg]
        cases cv with
        | nil => cases hcv
        | cons a as => simp
      rw [show join_parts ", ".data [c, s] = some (cv ++ ", ".data ++ sv) from by
        rw [join2_kT, hc, hs]]
      rw [join2_kT " ".data (some (cv ++ ", ".data ++ sv)) p, hbig]
      rw [join_parts_eq_list, filterMap_keepTruthy_cons,
          filterMap_keepTruthy_cons s, filterMap_keepTruthy_cons p,
          List.filterMap_nil, List.append_nil, hc, hs]
      cases hp : keepTruthy p with
      | none =>
        simp only [Option.toList, List.append_nil]
        rw [if_neg (by simp)]
        intro h
        have h2 := Option.some.inj h
        simp only [joinL, joinL_cons₂, List.append_assoc] at h2
        have h3 := List.append_cancel_left h2
        simp at h3
      | some pv =>
        simp only [Option.toList, List.append_nil]
        rw [if_neg (by simp)]
        intro h
        have h2 := Option.some.inj h
        simp only [joinL, joinL_cons₂, List.append_assoc] at h2
        have h3 := List.append_cancel_left h2
        simp at h3

/-! ## C10 -/

/-- C10 counterexample: on a record with both city and state set, the
normalize.py formatter renders `"SPRINGFIELD, IL"` while the
address_parser.py formatter renders `"SPRINGFIELD IL"` — the two
implementations are not equivalent. -/
theorem c10_formatters_differ_counterexample :
    format (some (define_address none none (some "SPRINGFIELD".data)
        (some "IL".data) none)) ≠
      AP.normalize (some (define_address none none (some "SPRINGFIELD".data)
        (some "IL".data) none)) := by
  decide

/-- C10 amended: the two formatters agree on the null record and on
exactly those records whose city and state are not both truthy (error
records render as null in both); whenever both city and state are
truthy they differ — format comma-joins them, normalize space-joins
them. -/
theorem c10_formatters_agree_iff (r : Addr) :
    format none = AP.normalize none ∧
    (format (some r) = AP.normalize (some r) ↔
      (r.error.isSome = true ∨ otruthy r.city = false ∨
        otruthy r.state = false)) := by
  refine ⟨rfl, ?_⟩
  unfold format AP.normalize
  cases he : r.error.isSome with
  | true => simp [he]
  | false =>
    simp only [he, Bool.false_eq_true, if_false]
    rw [join3_last_inj "\n".data r.address_line_1 r.address_line_2 _ _
      (join_parts_keepTruthy _ _) (join_parts_keepTruthy _ _)]
    rw [cityline_eq_iff]
    simp

/-! ## C7 : the correction pipeline returns the same tier in both
directions.  The proof shows each stage commutes: per stage, at most
one direction's fix can fire (prefix/substring antisymmetry), and when
both recipient shifts fire at once the two directions converge to
line-sharing pairs whose equality checks coincide. -/

lemma isPfx_refl (s : Str) : isPfx s s = true := by
  induction s with
  | nil => rfl
  | cons c cs ih => simp [isPfx, ih]

lemma isPfx_antisymm (a b : Str) (h1 : isPfx a b = true)
    (h2 : isPfx b a = true) : a = b := by
  induction a generalizing b with
  | nil => cases b with
    | nil => rfl
    | cons c cs => cases h2
  | cons c cs ih =>
    cases b with
    | nil => cases h1
    | cons d ds =>
      simp only [isPfx, Bool.and_eq_true, decide_eq_true_eq] at h1 h2
      rw [h1.1, ih ds h1.2 h2.2]

lemma isPfx_length (a b : Str) (h : isPfx a b = true) :
    a.length ≤ b.length := by
  induction a generalizing b with
  | nil => simp
  | cons c cs ih =>
    cases b with
    | nil => cases h
    | cons d ds =>
      simp only [isPfx, Bool.and_eq_true] at h
      simpa using ih ds h.2

lemma isSub_length (a b : Str) (h : isSub a b = true) :
    a.length ≤ b.length := by
  induction b with
  | nil => exact isPfx_length a [] h
  | cons d ds ih =>
    simp only [isSub, Bool.or_eq_true] at h
    cases h with
    | inl h => exact isPfx_length a (d :: ds) h
    | inr h => exact le_trans (ih h) (by simp)

lemma isPfx_eq_of_length (a b : Str) (h : isPfx a b = true)
    (hl : b.length ≤ a.length) : a = b :=
  isPfx_antisymm a b h (by
    induction a generalizing b with
    | nil =>
      cases b with
      | nil => rfl
      | cons d ds => simp at hl
    | cons c cs ih =>
      cases b with
      | nil => rfl
      | cons d ds =>
        simp only [isPfx, Bool.and_eq_true, decide_eq_true_eq] at h ⊢
        refine ⟨h.1.symm, ih ds h.2 (by simpa using hl)⟩)

lemma isSub_antisymm (a b : Str) (h1 : isSub a b = true)
    (h2 : isSub b a = true) : a = b := by
  have hl : b.length ≤ a.length := isSub_length b a h2
  clear h2
  induction b with
  | nil => exact isPfx_eq_of_length a [] h1 hl
  | cons d ds ih =>
    simp only [isSub, Bool.or_eq_true] at h1
    cases h1 with
    | inl h => exact isPfx_eq_of_length a (d :: ds) h hl
    | inr h =>
      have := isSub_length a ds h
      simp at hl
      omega

lemma otruthy_eq_some (o : Option Str) (h : otruthy o = true) :
    o = some (o.getD []) := by
  cases o with
  | none => cases h
  | some s => rfl

namespace AP

/-- The condition under which `_fix_zip(p, q, _)` updates `q`. -/
def zipCond (p q : Addr) : Bool :=
  otruthy p.postal_code &&
    (!otruthy q.postal_code ||
      isPfx (q.postal_code.getD []) (p.postal_code.getD []))

/-- The record part of `_fix_zip`'s result. -/
def zfix (p q : Addr) : Addr :=
  if zipCond p q then { q with postal_code := p.postal_code } else q

lemma fix_zip_eq (p q : Addr) (n : Option Str) (h : n = nrmA q) :
    fix_zip p q n = (zfix p q, nrmA (zfix p q)) := by
  unfold fix_zip zfix zipCond
  cases hc : (otruthy p.postal_code &&
      (!otruthy q.postal_code ||
        isPfx (q.postal_code.getD []) (p.postal_code.getD []))) <;>
    simp [hc, h]

lemma zfix_error (p q : Addr) : (zfix p q).error = q.error := by
  unfold zfix
  split <;> rfl

lemma zfix_comm (a b : Addr) :
    zfix (zfix a b) a = zfix b a ∧ zfix (zfix b a) b = zfix a b := by
  cases ha : otruthy a.postal_code <;> cases hb : otruthy b.postal_code
  · -- both falsy: no condition fires anywhere
    have e1 : zfix a b = b := by simp [zfix, zipCond, ha]
    have e2 : zfix b a = a := by simp [zfix, zipCond, hb]
    exact ⟨by rw [e1], by rw [e2]⟩
  · -- a falsy, b truthy: b's code flows into a either way
    have e1 : zfix a b = b := by simp [zfix, zipCond, ha]
    have e2 : zfix b a = { a with postal_code := b.postal_code } := by
      simp [zfix, zipCond, ha, hb]
    refine ⟨by rw [e1], ?_⟩
    rw [e2, e1]
    have c3 : zipCond { a with postal_code := b.postal_code } b = true := by
      simp [zipCond, hb, isPfx_refl]
    simp [zfix, c3]
  · -- a truthy, b falsy: a's code flows into b either way
    have e1 : zfix a b = { b with postal_code := a.postal_code } := by
      simp [zfix, zipCond, ha, hb]
    have e2 : zfix b a = a := by simp [zfix, zipCond, hb]
    refine ⟨?_, by rw [e2]⟩
    rw [e1, e2]
    have c3 : zipCond { b with postal_code := a.postal_code } a = true := by
      simp [zipCond, ha, isPfx_refl]
    simp [zfix, c3]
  · -- both truthy: case on the two startswith directions
    cases hab : isPfx (b.postal_code.getD []) (a.postal_code.getD []) <;>
      cases hba : isPfx (a.postal_code.getD []) (b.postal_code.getD [])
    · -- neither is a prefix of the other: nothing fires
      have e1 : zfix a b = b := by simp [zfix, zipCond, hb, hab]
      have e2 : zfix b a = a := by simp [zfix, zipCond, ha, hba]
      exact ⟨by rw [e1], by rw [e2]⟩
    · -- b's code extends a's: b's code flows into a either way
      have e1 : zfix a b = b := by simp [zfix, zipCond, hb, hab]
      have e2 : zfix b a = { a with postal_code := b.postal_code } := by
        simp [zfix, zipCond, ha, hb, hba]
      refine ⟨by rw [e1], ?_⟩
      rw [e2, e1]
      have c3 : zipCond { a with postal_code := b.postal_code } b = true := by
        simp [zipCond, hb, isPfx_refl]
      simp [zfix, c3]
    · -- a's code extends b's: a's code flows into b either way
      have e1 : zfix a b = { b with postal_code := a.postal_code } := by
        simp [zfix, zipCond, ha, hb, hab]
      have e2 : zfix b a = a := by simp [zfix, zipCond, ha, hba]
      refine ⟨?_, by rw [e2]⟩
      rw [e1, e2]
      have c3 : zipCond { b with postal_code := a.postal_code } a = true := by
        simp [zipCond, ha, isPfx_refl]
      simp [zfix, c3]
    · -- mutual prefixes: the codes are equal, every update is a no-op
      have heq : a.postal_code = b.postal_code := by
        rw [otruthy_eq_some a.postal_code ha, otruthy_eq_some b.postal_code hb,
            isPfx_antisymm _ _ hba hab]
      have e1 : zfix a b = b := by
        have hx : ({ b with postal_code := a.postal_code } : Addr) = b := by
          rw [heq]
        simp [zfix, zipCond, ha, hb, hab, hx]
      have e2 : zfix b a = a := by
        have hx : ({ a with postal_code := b.postal_code } : Addr) = a := by
          rw [← heq]
        simp [zfix, zipCond, ha, hb, hba, hx]
      exact ⟨by rw [e1], by rw [e2]⟩

end AP

namespace AP

/-- The recipient-shift condition of `_fix_missing_info`: the
reference's second line is truthy and equals the target's first line. -/
def recipCond (p q : Addr) : Bool :=
  otruthy p.address_line_2 && (p.address_line_2 == q.address_line_1)

/-- The copy-if-missing step of `_fix_missing_info` on one field. -/
def csf (r t : Option Str) : Option Str :=
  if otruthy r && !otruthy t then r else t

/-- The record part of `_fix_missing_info`'s result: city and state
copied when missing, both lines taken from the reference when the
recipient-shift condition holds. -/
def mfix (p q : Addr) : Addr :=
  { q with
    city := csf p.city q.city
    , state := csf p.state q.state
    , address_line_1 :=
        if recipCond p q then p.address_line_1 else q.address_line_1
    , address_line_2 :=
        if recipCond p q then p.address_line_2 else q.address_line_2 }

lemma fix_missing_eq (p q : Addr) (n : Option Str) (h : n = nrmA q) :
    fix_missing_info p q n = (mfix p q, nrmA (mfix p q)) := by
  unfold fix_missing_info mfix csf recipCond
  cases hc : (otruthy p.city && !otruthy q.city) <;>
    cases hs : (otruthy p.state && !otruthy q.state) <;>
      cases hr : (otruthy p.address_line_2 &&
        (p.address_line_2 == q.address_line_1)) <;>
    simp [hc, hs, hr, h]

lemma csf_comm (x y : Option Str) :
    csf (csf y x) y = csf x y ∧ csf (csf x y) x = csf y x := by
  cases hx : otruthy x <;> cases hy : otruthy y <;>
    simp [csf, hx, hy]

lemma mfix_error (p q : Addr) : (mfix p q).error = q.error := rfl

lemma mfix_postal (p q : Addr) : (mfix p q).postal_code = q.postal_code := rfl

lemma addrExt (r s : Addr)
    (h1 : r.address_line_1 = s.address_line_1)
    (h2 : r.address_line_2 = s.address_line_2)
    (h3 : r.city = s.city) (h4 : r.state = s.state)
    (h5 : r.postal_code = s.postal_code) (h6 : r.error = s.error)
    (h7 : r.normalized = s.normalized) : r = s := by
  cases r
  cases s
  simp only at h1 h2 h3 h4 h5 h6 h7
  subst h1 h2 h3 h4 h5 h6 h7
  rfl

lemma mfix_al2_of_not_recip (p q : Addr) (h : recipCond p q = false) :
    (mfix p q).address_line_2 = q.address_line_2 := by
  simp [mfix, h]

lemma mfix_al2_of_recip (p q : Addr) (h : recipCond p q = true) :
    (mfix p q).address_line_2 = p.address_line_2 := by
  simp [mfix, h]

lemma recipCond_mfix_false (a b : Addr) (rc : recipCond a b = false) :
    recipCond (mfix a b) a = recipCond b a := by
  unfold recipCond
  rw [mfix_al2_of_not_recip a b rc]

lemma recipCond_mfix_true (a b : Addr) (rc : recipCond a b = true) :
    recipCond (mfix a b) a =
      (otruthy a.address_line_2 && (a.address_line_2 == a.address_line_1)) := by
  unfold recipCond
  rw [mfix_al2_of_recip a b rc]

/-- When the recipient-shift condition does not hold in both directions
at once, one round of missing-info fixes commutes: fixing `a` from `b`
and then `b` from the fixed `a` yields the same pair of records as the
opposite order. -/
lemma mfix_comm (a b : Addr)
    (h : recipCond b a = false ∨ recipCond a b = false) :
    mfix (mfix a b) a = mfix b a ∧ mfix (mfix b a) b = mfix a b := by
  constructor
  · apply addrExt
    · cases rc2 : recipCond a b with
      | false =>
        rw [show (mfix (mfix a b) a).address_line_1 =
              (if recipCond (mfix a b) a = true then (mfix a b).address_line_1
                else a.address_line_1) from rfl,
            recipCond_mfix_false a b rc2,
            show (mfix a b).address_line_1 = b.address_line_1 from by
              simp [mfix, rc2]]
        rfl
      | true =>
        have rc1 : recipCond b a = false := by
          cases h with
          | inl hx => exact hx
          | inr hx => rw [hx] at rc2; cases rc2
        rw [show (mfix (mfix a b) a).address_line_1 =
              (if recipCond (mfix a b) a = true then (mfix a b).address_line_1
                else a.address_line_1) from rfl,
            recipCond_mfix_true a b rc2,
            show (mfix a b).address_line_1 = a.address_line_1 from by
              simp [mfix, rc2],
            show (mfix b a).address_line_1 = a.address_line_1 from by
              simp [mfix, rc1]]
        exact ite_self _
    · cases rc2 : recipCond a b with
      | false =>
        rw [show (mfix (mfix a b) a).address_line_2 =
              (if recipCond (mfix a b) a = true then (mfix a b).address_line_2
                else a.address_line_2) from rfl,
            recipCond_mfix_false a b rc2,
            mfix_al2_of_not_recip a b rc2]
        rfl
      | true =>
        have rc1 : recipCond b a = false := by
          cases h with
          | inl hx => exact hx
          | inr hx => rw [hx] at rc2; cases rc2
        rw [show (mfix (mfix a b) a).address_line_2 =
              (if recipCond (mfix a b) a = true then (mfix a b).address_line_2
                else a.address_line_2) from rfl,
            recipCond_mfix_true a b rc2,
            mfix_al2_of_recip a b rc2,
            mfix_al2_of_not_recip b a rc1]
        exact ite_self _
    · exact (csf_comm a.city b.city).2
    · exact (csf_comm a.state b.state).2
    · rfl
    · rfl
    · rfl
  · apply addrExt
    · cases rc1 : recipCond b a with
      | false =>
        rw [show (mfix (mfix b a) b).address_line_1 =
              (if recipCond (mfix b a) b = true then (mfix b a).address_line_1
                else b.address_line_1) from rfl,
            recipCond_mfix_false b a rc1,
            show (mfix b a).address_line_1 = a.address_line_1 from by
              simp [mfix, rc1]]
        rfl
      | true =>
        have rc2 : recipCond a b = false := by
          cases h with
          | inl hx => rw [hx] at rc1; cases rc1
          | inr hx => exact hx
        rw [show (mfix (mfix b a) b).address_line_1 =
              (if recipCond (mfix b a) b = true then (mfix b a).address_line_1
                else b.address_line_1) from rfl,
            recipCond_mfix_true b a rc1,
            show (mfix b a).address_line_1 = b.address_line_1 from by
              simp [mfix, rc1],
            show (mfix a b).address_line_1 = b.address_line_1 from by
              simp [mfix, rc2]]
        exact ite_self _
    · cases rc1 : recipCond b a with
      | false =>
        rw [show (mfix (mfix b a) b).address_line_2 =
              (if recipCond (mfix b a) b = true then (mfix b a).address_line_2
                else b.address_line_2) from rfl,
            recipCond_mfix_false b a rc1,
            mfix_al2_of_not_recip b a rc1]
        rfl
      | true =>
        have rc2 : recipCond a b = false := by
          cases h with
          | inl hx => rw [hx] at rc1; cases rc1
          | inr hx => exact hx
        rw [show (mfix (mfix b a) b).address_line_2 =
              (if recipCond (mfix b a) b = true then (mfix b a).address_line_2
                else b.address_line_2) from rfl,
            recipCond_mfix_true b a rc1,
            mfix_al2_of_recip b a rc1,
            mfix_al2_of_not_recip a b rc2]
        exact ite_self _
    · exact (csf_comm b.city a.city).2
    · exact (csf_comm b.state a.state).2
    · rfl
    · rfl
    · rfl

end AP

namespace AP

lemma nrmA_of_error_none (r : Addr) (h : r.error = none) :
    nrmA r = join_parts "\n".data [r.address_line_1, r.address_line_2,
      join_parts " ".data [r.city, r.state, r.postal_code]] := by
  unfold nrmA normalize
  simp [h]

/-- Whether the missing-info stage reaches normalization equality is
the same in both comparison directions. -/
lemma missing_stage_iff (a b : Addr) (hae : a.error = none)
    (hbe : b.error = none) :
    ((nrmA (mfix b a) = nrmA (mfix (mfix b a) b)) ↔
      (nrmA (mfix a b) = nrmA (mfix (mfix a b) a))) := by
  cases rc1 : recipCond b a with
  | false =>
    obtain ⟨h1, h2⟩ := mfix_comm a b (Or.inl rc1)
    rw [h1, h2]
    exact eq_comm
  | true =>
    cases rc2 : recipCond a b with
    | false =>
      obtain ⟨h1, h2⟩ := mfix_comm a b (Or.inr rc2)
      rw [h1, h2]
      exact eq_comm
    | true =>
      have hA1 : mfix b a =
          ⟨b.address_line_1, b.address_line_2, csf b.city a.city,
            csf b.state a.state, a.postal_code, a.error, a.normalized⟩ := by
        apply addrExt <;> simp [mfix, rc1]
      have hB1 : mfix (mfix b a) b =
          ⟨b.address_line_1, b.address_line_2, csf a.city b.city,
            csf a.state b.state, b.postal_code, b.error, b.normalized⟩ := by
        apply addrExt
        · rw [show (mfix (mfix b a) b).address_line_1 =
                (if recipCond (mfix b a) b = true then
                  (mfix b a).address_line_1 else b.address_line_1) from rfl,
              show (mfix b a).address_line_1 = b.address_line_1 from by
                simp [mfix, rc1]]
          exact ite_self _
        · rw [show (mfix (mfix b a) b).address_line_2 =
                (if recipCond (mfix b a) b = true then
                  (mfix b a).address_line_2 else b.address_line_2) from rfl,
              mfix_al2_of_recip b a rc1]
          exact ite_self _
        · exact (csf_comm a.city b.city).1
        · exact (csf_comm a.state b.state).1
        · rfl
        · rfl
        · rfl
      have hA2 : mfix a b =
          ⟨a.address_line_1, a.address_line_2, csf a.city b.city,
            csf a.state b.state, b.postal_code, b.error, b.normalized⟩ := by
        apply addrExt <;> simp [mfix, rc2]
      have hB2 : mfix (mfix a b) a =
          ⟨a.address_line_1, a.address_line_2, csf b.city a.city,
            csf b.state a.state, a.postal_code, a.error, a.normalized⟩ := by
        apply addrExt
        · rw [show (mfix (mfix a b) a).address_line_1 =
                (if recipCond (mfix a b) a = true then
                  (mfix a b).address_line_1 else a.address_line_1) from rfl,
              show (mfix a b).address_line_1 = a.address_line_1 from by
                simp [mfix, rc2]]
          exact ite_self _
        · rw [show (mfix (mfix a b) a).address_line_2 =
                (if recipCond (mfix a b) a = true then
                  (mfix a b).address_line_2 else a.address_line_2) from rfl,
              mfix_al2_of_recip a b rc2]
          exact ite_self _
        · exact (csf_comm b.city a.city).1
        · exact (csf_comm b.state a.state).1
        · rfl
        · rfl
        · rfl
      rw [hB1, hB2, hA1, hA2]
      rw [nrmA_of_error_none
            ⟨b.address_line_1, b.address_line_2, csf b.city a.city,
              csf b.state a.state, a.postal_code, a.error, a.normalized⟩ hae,
          nrmA_of_error_none
            ⟨b.address_line_1, b.address_line_2, csf a.city b.city,
              csf a.state b.state, b.postal_code, b.error, b.normalized⟩ hbe,
          nrmA_of_error_none
            ⟨a.address_line_1, a.address_line_2, csf a.city b.city,
              csf a.state b.state, b.postal_code, b.error, b.normalized⟩ hbe,
          nrmA_of_error_none
            ⟨a.address_line_1, a.address_line_2, csf b.city a.city,
              csf b.state a.state, a.postal_code, a.error, a.normalized⟩ hae]
      rw [join3_last_inj _ _ _ _ _ (join_parts_keepTruthy _ _)
            (join_parts_keepTruthy _ _),
          join3_last_inj _ _ _ _ _ (join_parts_keepTruthy _ _)
            (join_parts_keepTruthy _ _)]
      exact eq_comm

end AP

namespace AP

/-- The last pipeline stage returns the same match tier in both
comparison directions. -/
lemma stageMissing_match_symm (x y : Addr) (hx : x.error = none)
    (hy : y.error = none) :
    (stageMissing (x, nrmA x) (y, nrmA y)).1.match_ =
      (stageMissing (y, nrmA y) (x, nrmA x)).1.match_ := by
  unfold stageMissing
  simp only
  rw [fix_missing_eq y x (nrmA x) rfl, fix_missing_eq (mfix y x) y (nrmA y) rfl,
      fix_missing_eq x y (nrmA y) rfl, fix_missing_eq (mfix x y) x (nrmA x) rfl]
  by_cases hc : nrmA (mfix y x) = nrmA (mfix (mfix y x) y)
  · rw [if_pos hc, if_pos ((missing_stage_iff x y hx hy).1 hc)]
    rfl
  · rw [if_neg hc,
        if_neg (fun h2 => hc ((missing_stage_iff x y hx hy).2 h2))]

end AP

namespace AP

lemma cityCond_antisymm (p q : Addr) (h : cityCond p q = true) :
    cityCond q p = false := by
  cases hqp : cityCond q p with
  | false => rfl
  | true =>
    exfalso
    simp only [cityCond, Bool.and_eq_true] at h hqp
    have hp : otruthy p.city = true := h.1.1.1.1
    have hq : otruthy q.city = true := h.1.1.1.2
    have hne := h.1.1.2
    have hsub := h.1.2
    have hsub' := hqp.1.2
    have heq : p.city.getD [] = q.city.getD [] :=
      isSub_antisymm _ _ hsub hsub'
    have : p.city = q.city := by
      rw [otruthy_eq_some p.city hp, otruthy_eq_some q.city hq, heq]
    simp [this] at hne

lemma cfixE_ok_city (p q r : Addr) (h : cfixE p q = .ok r) :
    r.city = p.city := by
  unfold cfixE at h
  cases hA : otruthy q.address_line_2 <;> rw [hA] at h
  · simp only [Bool.false_eq_true, if_false] at h
    cases hL : q.address_line_1 <;> rw [hL] at h
    · cases h
    · injection h with h
      rw [← h]
  · simp only [if_true] at h
    injection h with h
    rw [← h]

lemma cfixE_ok_error (p q r : Addr) (h : cfixE p q = .ok r) :
    r.error = q.error := by
  unfold cfixE at h
  cases hA : otruthy q.address_line_2 <;> rw [hA] at h
  · simp only [Bool.false_eq_true, if_false] at h
    cases hL : q.address_line_1 <;> rw [hL] at h
    · cases h
    · injection h with h
      rw [← h]
  · simp only [if_true] at h
    injection h with h
    rw [← h]

lemma cityCond_of_city_eq (p q : Addr) (h : p.city = q.city) :
    cityCond p q = false := by
  simp [cityCond, h]

/-- The city-spacing stage (and everything after it) returns the same
match tier — or raises the same TypeError — in both comparison
directions. -/
lemma stageCity_match_symm (x y : Addr) (hx : x.error = none)
    (hy : y.error = none) :
    (stageCity (x, nrmA x) (y, nrmA y)).map (fun r => r.1.match_) =
      (stageCity (y, nrmA y) (x, nrmA x)).map (fun r => r.1.match_) := by
  cases hba : cityCond y x with
  | true =>
    have hab : cityCond x y = false := cityCond_antisymm y x hba
    cases hcf : cfixE y x with
    | error e =>
      have e1 : fix_city_spacing y x (nrmA x) = .error e := by
        simp [fix_city_spacing, hba, hcf]
      have e2 : fix_city_spacing x y (nrmA y) = .ok (y, nrmA y) := by
        simp [fix_city_spacing, hab]
      unfold stageCity
      simp only [e1, e2]
    | ok r =>
      have hrc : r.city = y.city := cfixE_ok_city y x r hcf
      have hre : r.error = none := by
        rw [cfixE_ok_error y x r hcf]
        exact hx
      have e1 : fix_city_spacing y x (nrmA x) = .ok (r, nrmA r) := by
        simp [fix_city_spacing, hba, hcf]
      have e2 : fix_city_spacing x y (nrmA y) = .ok (y, nrmA y) := by
        simp [fix_city_spacing, hab]
      have e3 : fix_city_spacing r y (nrmA y) = .ok (y, nrmA y) := by
        simp [fix_city_spacing, cityCond_of_city_eq r y hrc]
      unfold stageCity
      simp only [e1, e2, e3]
      by_cases hE : nrmA r = nrmA y
      · rw [if_pos hE, if_pos hE.symm]
        rfl
      · rw [if_neg hE, if_neg (fun h2 => hE h2.symm)]
        simp only [Except.map]
        rw [stageMissing_match_symm r y hre hy]
  | false =>
    cases hab : cityCond x y with
    | true =>
      cases hcf : cfixE x y with
      | error e =>
        have e1 : fix_city_spacing y x (nrmA x) = .ok (x, nrmA x) := by
          simp [fix_city_spacing, hba]
        have e2 : fix_city_spacing x y (nrmA y) = .error e := by
          simp [fix_city_spacing, hab, hcf]
        unfold stageCity
        simp only [e1, e2]
      | ok r =>
        have hrc : r.city = x.city := cfixE_ok_city x y r hcf
        have hre : r.error = none := by
          rw [cfixE_ok_error x y r hcf]
          exact hy
        have e1 : fix_city_spacing y x (nrmA x) = .ok (x, nrmA x) := by
          simp [fix_city_spacing, hba]
        have e2 : fix_city_spacing x y (nrmA y) = .ok (r, nrmA r) := by
          simp [fix_city_spacing, hab, hcf]
        have e3 : fix_city_spacing r x (nrmA x) = .ok (x, nrmA x) := by
          simp [fix_city_spacing, cityCond_of_city_eq r x hrc]
        unfold stageCity
        simp only [e1, e2, e3]
        by_cases hE : nrmA x = nrmA r
        · rw [if_pos hE, if_pos hE.symm]
          rfl
        · rw [if_neg hE, if_neg (fun h2 => hE h2.symm)]
          simp only [Except.map]
          rw [stageMissing_match_symm x r hx hre]
    | false =>
      have e1 : fix_city_spacing y x (nrmA x) = .ok (x, nrmA x) := by
        simp [fix_city_spacing, hba]
      have e2 : fix_city_spacing x y (nrmA y) = .ok (y, nrmA y) := by
        simp [fix_city_spacing, hab]
      unfold stageCity
      simp only [e1, e2]
      by_cases hE : nrmA x = nrmA y
      · rw [if_pos hE, if_pos hE.symm]
        rfl
      · rw [if_neg hE, if_neg (fun h2 => hE h2.symm)]
        simp only [Except.map]
        rw [stageMissing_match_symm x y hx hy]

end AP

namespace AP

/-- The whole correction pipeline returns the same match tier — or
raises the same TypeError — in both comparison directions. -/
lemma pipeline_match_symm (r1 r2 : Addr) (h1 : r1.error = none)
    (h2 : r2.error = none) :
    (pipeline r1 r2 (nrmA r1) (nrmA r2)).map (fun x => x.1.match_) =
      (pipeline r2 r1 (nrmA r2) (nrmA r1)).map (fun x => x.1.match_) := by
  unfold pipeline
  rw [fix_zip_eq r2 r1 (nrmA r1) rfl, fix_zip_eq r1 r2 (nrmA r2) rfl]
  simp only
  rw [fix_zip_eq (zfix r2 r1) r2 (nrmA r2) rfl,
      fix_zip_eq (zfix r1 r2) r1 (nrmA r1) rfl]
  obtain ⟨hzc1, hzc2⟩ := zfix_comm r1 r2
  rw [hzc1, hzc2]
  by_cases hE : nrmA (zfix r2 r1) = nrmA (zfix r1 r2)
  · rw [if_pos hE, if_pos hE.symm]
    rfl
  · rw [if_neg hE, if_neg (fun h => hE h.symm)]
    exact stageCity_match_symm (zfix r2 r1) (zfix r1 r2)
      (by rw [zfix_error]; exact h1) (by rw [zfix_error]; exact h2)

end AP


/-! ## C7 -/

/-- C7: for every oracle and every pair of raw address strings, the
two comparison directions agree on the match tier: `compare(A, B)` and
`compare(B, A)` return the same `match` value (EXACT, INDICATOR or
NONE) — and on the inputs where the city-spacing fix appends to a null
line, both directions raise the same TypeError.  The preferences and
info strings may differ; only the tier is claimed. -/
theorem c7_match_tier_symmetric (ext : ExtCap) (a1 a2 : Option Str) :
    (AP.compare ext none a1 a2).map (fun x => x.1.match_) =
      (AP.compare ext none a2 a1).map (fun x => x.1.match_) := by
  by_cases h12 : a1 = a2
  · rw [h12]
  · unfold AP.compare
    rw [if_neg h12, if_neg (show ¬(a2 = a1) from fun h => h12 h.symm)]
    simp only [Option.getD]
    cases he1 : (AP.parse ext a1).error <;> cases he2 : (AP.parse ext a2).error <;>
      simp only [he1, he2, Option.isSome_none, Option.isSome_some,
        Bool.false_eq_true, eq_self_iff_true, if_false, if_true]
    · -- both parse without error
      by_cases hn : AP.nrmA (AP.parse ext a1) = AP.nrmA (AP.parse ext a2)
      · rw [if_pos hn,
            if_pos (show AP.nrmA (AP.parse ext a2) =
              AP.nrmA (AP.parse ext a1) from hn.symm)]
        rfl
      · rw [if_neg hn,
            if_neg (show ¬(AP.nrmA (AP.parse ext a2) =
              AP.nrmA (AP.parse ext a1)) from fun h => hn h.symm)]
        cases ho1 : otruthy (AP.nrmA (AP.parse ext a1)) <;>
          cases ho2 : otruthy (AP.nrmA (AP.parse ext a2)) <;>
          simp only [ho1, ho2, Bool.not_true, Bool.not_false, Bool.true_and,
            Bool.false_and, Bool.and_true, Bool.and_false, Bool.or_self,
            Bool.true_or, Bool.or_true, Bool.false_or, Bool.or_false,
            Bool.false_eq_true, eq_self_iff_true, if_false, if_true]
        · exact AP.pipeline_match_symm _ _ he1 he2
        · rfl
        · rfl
        · exact AP.pipeline_match_symm _ _ he1 he2
    · rfl
    · rfl
    · rfl
